import Mathlib

/-!
A shallow embedding of the PTY relay supervisor in
`scripts/claude-auth-pty.py`.  The parent side of the program is a
single-threaded loop over OS interactions; every OS call outcome
(select, read, write, waitpid, kill) is an explicit event supplied to a
step function, and the side effects the program performs are recorded in
an explicit action trace.  The child branch after the fork is modelled
separately as a function of the exec outcome.
-/

namespace PtyRelay

/-- File descriptors that the relay manipulates. -/
inductive Fd
  | master
  | stdinFd
  | stdoutFd
  deriving DecidableEq

/-- The numeric termination signal, `signal.SIGTERM`. -/
def SIGTERM : Nat := 15

/-- Observable side effects of the parent process, in program order. -/
inductive Action
  | selectWait (watched : List Fd)
  | readFd (fd : Fd)
  | writeFd (fd : Fd) (bytes : List Nat)
  | closeMaster
  | kill (sig : Nat)
  | waitNonBlocking
  | waitBlocking
  deriving DecidableEq

/-- True for operations that suspend the caller or move bytes on a
stream; sending a signal, the nonblocking waitpid, and closing a
descriptor are neither blocking nor stream I/O. -/
def Action.isBlocking : Action → Bool
  | .selectWait _ => true
  | .readFd _ => true
  | .writeFd _ _ => true
  | .waitBlocking => true
  | .waitNonBlocking => false
  | .closeMaster => false
  | .kill _ => false

/-- True exactly for the action of closing the master descriptor. -/
def Action.isClose : Action → Bool
  | .closeMaster => true
  | _ => false

/-- Decoded `os.waitpid` status, via `os.WIFEXITED` / `os.WEXITSTATUS`:
either a normal exit with a code, or a termination by signal. -/
inductive Status
  | exited (code : Nat)
  | signaled (sig : Nat)
  deriving DecidableEq

/-- Result of an `os.read` call: an `OSError`, or the bytes read, where
the empty list denotes end of stream. -/
inductive ReadResult
  | err
  | data (bytes : List Nat)
  deriving DecidableEq

/-- Result of `select.select` on `[master_fd, stdin]`: a raised
`ValueError` or `OSError`, or the readability of the master descriptor
and of the parent stdin descriptor. -/
inductive SelectResult
  | err
  | ready (m : Bool) (s : Bool)
  deriving DecidableEq

/-- Result of the nonblocking `os.waitpid(pid, os.WNOHANG)` call:
a `ChildProcessError`, no status change yet, or a reaped status. -/
inductive WaitResult
  | err
  | noChange
  | reaped (st : Status)
  deriving DecidableEq

/-- Result of the blocking `os.waitpid(pid, 0)` call in the cleanup
block: a `ChildProcessError` (the child is already reaped), or a reaped
status. -/
inductive FinalWaitResult
  | err
  | reaped (st : Status)
  deriving DecidableEq

/-- Outcome of the `os.kill` in the signal handler: delivered, or the
child is already gone (`ProcessLookupError`, which the handler
swallows). -/
inductive SigKill
  | delivered
  | noProcess
  deriving DecidableEq

/-- Outcome of the `os.kill` in the cleanup block, which additionally
swallows `PermissionError`. -/
inductive KillResult
  | delivered
  | noProcess
  | permErr
  deriving DecidableEq

/-- Mutable parent state of the relay loop.  The `child_alive` flag is
the only variable that survives from one iteration to the next: the
`fds` list is rebuilt at the top of every iteration. -/
structure RelayState where
  childAlive : Bool
  deriving DecidableEq

/-- The `sigterm_handler` function (lines 42-48): forward SIGTERM to the
child — a `ProcessLookupError`, meaning the child is already gone, is
swallowed as benign — then clear `child_alive`.  The `sig` argument is
the delivered signal number, which the handler ignores (it always sends
`signal.SIGTERM`). -/
def sigterm_handler (_sig : Nat) (k : SigKill) (s : RelayState) :
    RelayState × List Action :=
  match k with
  | .delivered => ({ s with childAlive := false }, [Action.kill SIGTERM])
  | .noProcess => ({ s with childAlive := false }, [Action.kill SIGTERM])

/-- OS responses consumed by one iteration of the relay while-loop.
`sigterm` says whether a SIGTERM arrived (and the handler ran) just
before the loop condition was tested; `sigKill` is the outcome of the
kill inside the handler in that case.  The remaining fields are the
outcomes of the iteration's select, reads, writes and nonblocking
waitpid, consumed only when the corresponding call is reached. -/
structure IterEvents where
  sigterm : Bool
  sigKill : SigKill
  sel : SelectResult
  masterRead : ReadResult
  stdoutWriteOk : Bool
  stdinRead : ReadResult
  masterWriteOk : Bool
  wait : WaitResult
  deriving DecidableEq

/-- Dispatch arm for the master descriptor (lines 61-71): read from the
master; end of stream, an `OSError` on the read, or an `OSError` on the
stdout write clears `child_alive` and breaks out of the for-loop.
Returns `(child_alive, broke, actions)`. -/
def masterBranch (mr : ReadResult) (stdoutWriteOk : Bool) :
    Bool × Bool × List Action :=
  match mr with
  | .err => (false, true, [Action.readFd .master])
  | .data [] => (false, true, [Action.readFd .master])
  | .data bs =>
    if stdoutWriteOk then
      (true, false, [Action.readFd .master, Action.writeFd .stdoutFd bs])
    else
      (false, true, [Action.readFd .master, Action.writeFd .stdoutFd bs])

/-- Dispatch arm for the stdin descriptor (lines 72-83): read from the
parent stdin; zero bytes removes stdin from the local `fds` list and
continues; nonzero bytes are written to the master; an `OSError` from
the read or the write breaks out of the for-loop without touching
`child_alive`.  Returns `(broke, fdsLocal, actions)`. -/
def stdinBranch (sr : ReadResult) (masterWriteOk : Bool) (fds : List Fd) :
    Bool × List Fd × List Action :=
  match sr with
  | .err => (true, fds, [Action.readFd .stdinFd])
  | .data [] => (false, fds.erase .stdinFd, [Action.readFd .stdinFd])
  | .data bs =>
    if masterWriteOk then
      (false, fds, [Action.readFd .stdinFd, Action.writeFd .master bs])
    else
      (true, fds, [Action.readFd .stdinFd, Action.writeFd .master bs])

/-- The for-loop over the readable descriptors (lines 60-83).  `select`
reports descriptors in the order of the watched list (master first, then
stdin), and a `break` in the master arm skips the stdin arm.  The
possibly shrunken local `fds` list is returned, but — exactly as in the
source — the caller discards it.  Returns
`(child_alive, fdsLocal, actions)`. -/
def dispatch (m s : Bool) (mr : ReadResult) (stdoutWriteOk : Bool)
    (sr : ReadResult) (masterWriteOk : Bool) (fds : List Fd) :
    Bool × List Fd × List Action :=
  if m then
    let r1 := masterBranch mr stdoutWriteOk
    if r1.2.1 then (r1.1, fds, r1.2.2)
    else if s then
      let r2 := stdinBranch sr masterWriteOk fds
      (r1.1, r2.2.1, r1.2.2 ++ r2.2.2)
    else (r1.1, fds, r1.2.2)
  else if s then
    let r2 := stdinBranch sr masterWriteOk fds
    (true, r2.2.1, r2.2.2)
  else (true, fds, [])

/-- Why the while-loop stopped. -/
inductive ExitReason
  | flagFalse
  | selectError
  | childGone
  | sysExit
  deriving DecidableEq

/-- Result of one pass through the loop head and body: either the loop
continues with a new state, or it stops with a reason and — when
`sys.exit` was called inside the loop — the pending `SystemExit`
code. -/
inductive StepResult
  | next (s : RelayState)
  | exitLoop (r : ExitReason) (pending : Option Nat)
  deriving DecidableEq

/-- One test of the while condition followed, if the loop continues, by
one iteration of the relay loop body (lines 53-96): rebuild `fds`,
select, dispatch the readable descriptors, then the nonblocking child
status check and the re-test of `child_alive`. -/
def relayStep (s : RelayState) (ev : IterEvents) : StepResult × List Action :=
  let h := if ev.sigterm then sigterm_handler SIGTERM ev.sigKill s else (s, [])
  if h.1.childAlive then
    let fds : List Fd := [Fd.master, Fd.stdinFd]
    match ev.sel with
    | .err => (.exitLoop .selectError none, h.2 ++ [Action.selectWait fds])
    | .ready m st =>
      let d := dispatch m st ev.masterRead ev.stdoutWriteOk ev.stdinRead
        ev.masterWriteOk fds
      let acts := h.2 ++ [Action.selectWait fds] ++ d.2.2 ++ [Action.waitNonBlocking]
      let res : StepResult :=
        match ev.wait with
        | .err => .exitLoop .childGone none
        | .reaped (.exited n) => .exitLoop .sysExit (some n)
        | .reaped (.signaled _) => .exitLoop .sysExit (some 1)
        | .noChange =>
          if d.1 then .next { childAlive := true }
          else .exitLoop .flagFalse none
      (res, acts)
  else (.exitLoop .flagFalse none, h.2)

/-- Outcome of running the loop against a finite schedule of OS events:
either the schedule ran out with the loop still going, or the loop
exited. -/
inductive LoopOutcome
  | running (s : RelayState)
  | exited (r : ExitReason) (pending : Option Nat)
  deriving DecidableEq

/-- The relay while-loop, driven by a finite schedule of per-iteration
events. -/
def relayLoop (s : RelayState) : List IterEvents → LoopOutcome × List Action
  | [] => (.running s, [])
  | ev :: evs =>
    match relayStep s ev with
    | (.next s1, acts) =>
      let r := relayLoop s1 evs
      (r.1, acts ++ r.2)
    | (.exitLoop r p, acts) => (.exited r p, acts)

/-- OS responses consumed by the cleanup (`finally`) block. -/
structure CleanupEvents where
  closeOk : Bool
  kill : KillResult
  finalWait : FinalWaitResult
  deriving DecidableEq

/-- The `finally` block, lines 98-112: close the master (`OSError`
swallowed), SIGTERM the child (`ProcessLookupError` and
`PermissionError` swallowed), then block in waitpid.  A normal child
exit calls `sys.exit` with its code; any other outcome falls through, so
the process finishes with the pending `SystemExit` code when one was in
flight and with 0 otherwise.  Returns the final process exit code and
the cleanup actions. -/
def cleanup (pending : Option Nat) (ev : CleanupEvents) : Nat × List Action :=
  let acts := [Action.closeMaster, Action.kill SIGTERM, Action.waitBlocking]
  match ev.finalWait with
  | .reaped (.exited n) => (n, acts)
  | .reaped (.signaled _) => (pending.getD 0, acts)
  | .err => (pending.getD 0, acts)

/-- A full run of the parent: the relay loop followed, whenever the loop
exited, by the cleanup block.  The first component is `none` when the
event schedule ended with the loop still running (cleanup has not run
yet) and `some c` when the supervisor process finished with exit code
`c`. -/
def mainRun (evs : List IterEvents) (cev : CleanupEvents) :
    Option Nat × List Action :=
  match relayLoop { childAlive := true } evs with
  | (.running _, tr) => (none, tr)
  | (.exited _ p, tr) =>
    let c := cleanup p cev
    (some c.1, tr ++ c.2)

/-- The environment handed to the child (lines 29-31), as a lookup
function: the parent environment with `CLAUDECODE` popped and `TERM`
assigned the value "dumb". -/
def childEnv (parent : String → Option String) : String → Option String :=
  fun k =>
    if k = "TERM" then some "dumb"
    else if k = "CLAUDECODE" then none
    else parent k

/-- Outcome of the `os.execvpe` call in the child branch. -/
inductive ExecOutcome
  | replaced
  | failed (msg : String)
  deriving DecidableEq

/-- What becomes of the forked child branch (lines 21-36): on success
the process image is replaced by the target command and control never
returns to the supervisor code; on failure a message is written to the
child stderr and `os._exit(1)` ends the branch. -/
inductive ChildResult
  | execed
  | exitedEarly (code : Nat) (stderrOut : List String)
  deriving DecidableEq

/-- The child branch after the fork (lines 32-36): attempt the exec; on
an exception, report on stderr and exit the branch with code 1. -/
def childBranch (e : ExecOutcome) : ChildResult :=
  match e with
  | .replaced => .execed
  | .failed msg => .exitedEarly 1 ["Failed to exec claude: " ++ msg ++ "\n"]

/-- Iteration in which a SIGTERM is delivered (handler kill succeeds)
right before the loop condition is tested; the other fields are never
consumed on this path. -/
def evSigterm : IterEvents :=
  { sigterm := true, sigKill := SigKill.delivered, sel := SelectResult.err,
    masterRead := ReadResult.err, stdoutWriteOk := true,
    stdinRead := ReadResult.err, masterWriteOk := true,
    wait := WaitResult.noChange }

/-- Iteration in which only the parent stdin is readable, it yields one
byte, and the write of that byte to the master descriptor fails. -/
def evStdinWriteFail : IterEvents :=
  { sigterm := false, sigKill := SigKill.delivered,
    sel := SelectResult.ready false true, masterRead := ReadResult.err,
    stdoutWriteOk := true, stdinRead := ReadResult.data [65],
    masterWriteOk := false, wait := WaitResult.noChange }

/-- Iteration in which only the master is readable and yields one byte
that is relayed to stdout. -/
def evMasterData : IterEvents :=
  { sigterm := false, sigKill := SigKill.delivered,
    sel := SelectResult.ready true false,
    masterRead := ReadResult.data [66], stdoutWriteOk := true,
    stdinRead := ReadResult.err, masterWriteOk := true,
    wait := WaitResult.noChange }

/-- Iteration in which only the parent stdin is readable and the read
returns zero bytes (end of stream). -/
def evStdinEof : IterEvents :=
  { sigterm := false, sigKill := SigKill.delivered,
    sel := SelectResult.ready false true, masterRead := ReadResult.err,
    stdoutWriteOk := true, stdinRead := ReadResult.data [],
    masterWriteOk := true, wait := WaitResult.noChange }

/-- Iteration in which nothing is readable and the nonblocking waitpid
reaps a child that exited normally with code 7. -/
def evChildExit7 : IterEvents :=
  { sigterm := false, sigKill := SigKill.delivered,
    sel := SelectResult.ready false false, masterRead := ReadResult.err,
    stdoutWriteOk := true, stdinRead := ReadResult.err,
    masterWriteOk := true, wait := WaitResult.reaped (Status.exited 7) }

/-- Iteration in which nothing is readable and the nonblocking waitpid
reaps a child that exited normally with code 1. -/
def evChildExit1 : IterEvents :=
  { sigterm := false, sigKill := SigKill.delivered,
    sel := SelectResult.ready false false, masterRead := ReadResult.err,
    stdoutWriteOk := true, stdinRead := ReadResult.err,
    masterWriteOk := true, wait := WaitResult.reaped (Status.exited 1) }

/-- Iteration in which the select call itself raises. -/
def evSelectErr : IterEvents :=
  { sigterm := false, sigKill := SigKill.delivered, sel := SelectResult.err,
    masterRead := ReadResult.err, stdoutWriteOk := true,
    stdinRead := ReadResult.err, masterWriteOk := true,
    wait := WaitResult.noChange }

theorem masterBranch_no_close (mr : ReadResult) (so : Bool) :
    ((masterBranch mr so).2.2).countP Action.isClose = 0 := by
  cases mr with
  | err => rfl
  | data bs =>
    cases bs with
    | nil => rfl
    | cons b t => cases so <;> rfl

theorem stdinBranch_no_close (sr : ReadResult) (mw : Bool) (fds : List Fd) :
    ((stdinBranch sr mw fds).2.2).countP Action.isClose = 0 := by
  cases sr with
  | err => rfl
  | data bs =>
    cases bs with
    | nil => rfl
    | cons b t => cases mw <;> rfl

theorem dispatch_no_close (m s : Bool) (mr : ReadResult) (so : Bool)
    (sr : ReadResult) (mw : Bool) (fds : List Fd) :
    ((dispatch m s mr so sr mw fds).2.2).countP Action.isClose = 0 := by
  rcases hm : masterBranch mr so with ⟨a1, br1, acts1⟩
  rcases hs : stdinBranch sr mw fds with ⟨br2, fds2, acts2⟩
  have h1 : acts1.countP Action.isClose = 0 := by
    have h := masterBranch_no_close mr so
    rw [hm] at h
    exact h
  have h2 : acts2.countP Action.isClose = 0 := by
    have h := stdinBranch_no_close sr mw fds
    rw [hs] at h
    exact h
  cases m <;> cases s <;> cases br1 <;>
    simp [dispatch, hm, hs, List.countP_append, h1, h2]

theorem relayStep_no_close (s : RelayState) (ev : IterEvents) :
    ((relayStep s ev).2).countP Action.isClose = 0 := by
  rcases ev with ⟨sg, sk, sel, mr, so, sr, mw, w⟩
  rcases s with ⟨ca⟩
  cases sg
  · cases ca
    · rfl
    · cases sel with
      | err => rfl
      | ready m st =>
        simp [relayStep, List.countP_append, dispatch_no_close, Action.isClose]
  · cases sk <;> cases ca <;> rfl

theorem relayLoop_no_close (evs : List IterEvents) : ∀ s : RelayState,
    ((relayLoop s evs).2).countP Action.isClose = 0 := by
  induction evs with
  | nil => intro s; rfl
  | cons ev evs ih =>
    intro s
    have h := relayStep_no_close s ev
    unfold relayLoop
    cases hx : relayStep s ev with
    | mk res acts =>
      rw [hx] at h
      cases res with
      | next s1 => simpa [List.countP_append, h] using ih s1
      | exitLoop r p => simpa using h

theorem cleanup_trace_eq (p : Option Nat) (cev : CleanupEvents) :
    (cleanup p cev).2
      = [Action.closeMaster, Action.kill SIGTERM, Action.waitBlocking] := by
  rcases cev with ⟨co, kl, fw⟩
  cases fw with
  | err => rfl
  | reaped st => cases st <;> rfl

/-- C1: the claim says that whenever the loop has exited and the child
did not exit normally, the supervisor exits with code 1, in particular
on the SIGTERM relay path.  The code disagrees: when the child death by
signal is observed only by the blocking waitpid in the cleanup block,
no `sys.exit` is called there (line 109 has no else-branch), the
`finally` block completes, `main` returns, and the process finishes
with exit code 0.  The run below delivers a SIGTERM, the loop unwinds
via `child_alive`, cleanup reaps a SIGTERM-killed child, and the
supervisor exit code is 0, not 1. -/
theorem c1_signal_path_exits_zero_not_one :
    mainRun [evSigterm]
      { closeOk := true, kill := KillResult.noProcess,
        finalWait := FinalWaitResult.reaped (Status.signaled SIGTERM) }
      = (some 0,
         [Action.kill SIGTERM, Action.closeMaster, Action.kill SIGTERM,
          Action.waitBlocking]) := by
  decide

/-- C2 counterexample: after a chunk of nonzero bytes is read from the
parent stdin and the write of those bytes to the master fails, the
relay loop does not terminate: the `break` at line 83 only leaves the
per-iteration dispatch, `child_alive` stays true, and the next
iteration still relays master output to stdout. -/
theorem c2_write_failure_loop_continues :
    relayLoop { childAlive := true } [evStdinWriteFail, evMasterData]
      = (.running { childAlive := true },
         [Action.selectWait [Fd.master, Fd.stdinFd], Action.readFd .stdinFd,
          Action.writeFd .master [65], Action.waitNonBlocking,
          Action.selectWait [Fd.master, Fd.stdinFd], Action.readFd .master,
          Action.writeFd .stdoutFd [66], Action.waitNonBlocking]) := by
  rfl

/-- C2 amended: in the relay loop, for every chunk of nonzero bytes
read from the parent stdin, a failed write of those bytes to the master
descriptor only abandons the dispatch for that iteration; the loop
itself continues with `child_alive` still true. -/
theorem c2_amended_write_failure_only_abandons_dispatch (b : Nat)
    (bs : List Nat) (k : SigKill) (mr : ReadResult) (so : Bool) :
    relayStep { childAlive := true }
      { sigterm := false, sigKill := k, sel := SelectResult.ready false true,
        masterRead := mr, stdoutWriteOk := so,
        stdinRead := ReadResult.data (b :: bs), masterWriteOk := false,
        wait := WaitResult.noChange }
      = (.next { childAlive := true },
         [Action.selectWait [Fd.master, Fd.stdinFd], Action.readFd .stdinFd,
          Action.writeFd .master (b :: bs), Action.waitNonBlocking]) := rfl

/-- C3: the claim says that after stdin end of stream the stdin
descriptor is excluded from the multiplexed wait in every subsequent
iteration.  The code disagrees: `fds` is rebuilt at the top of each
iteration (line 54), so the `fds.remove` at line 79 has no effect on
later iterations; after an EOF iteration, the next select again watches
stdin and the EOF read repeats.  The trace below shows the second
iteration watching and reading stdin again. -/
theorem c3_stdin_watched_again_after_eof :
    relayLoop { childAlive := true } [evStdinEof, evStdinEof]
      = (.running { childAlive := true },
         [Action.selectWait [Fd.master, Fd.stdinFd], Action.readFd .stdinFd,
          Action.waitNonBlocking,
          Action.selectWait [Fd.master, Fd.stdinFd], Action.readFd .stdinFd,
          Action.waitNonBlocking]) := by
  rfl

/-- C4: if the child exits normally with code N, the supervisor exit
code is exactly N, both when the status was captured by the loop's
nonblocking waitpid (the pending `SystemExit` carries N and the re-wait
in cleanup raises `ChildProcessError`, leaving it authoritative) and
when the final blocking wait in cleanup observes the normal exit. -/
theorem c4_exit_code_propagation (evs : List IterEvents)
    (cev : CleanupEvents) (r : ExitReason) (p : Option Nat) (n : Nat)
    (hl : (relayLoop { childAlive := true } evs).1 = .exited r p)
    (hw : (p = some n ∧ cev.finalWait = FinalWaitResult.err)
        ∨ (p = none
            ∧ cev.finalWait = FinalWaitResult.reaped (Status.exited n))) :
    (mainRun evs cev).1 = some n := by
  unfold mainRun
  cases hx : relayLoop { childAlive := true } evs with
  | mk o tr =>
    rw [hx] at hl
    dsimp at hl
    subst hl
    rcases hw with ⟨hp, hf⟩ | ⟨hp, hf⟩ <;> subst hp <;>
      simp [cleanup, hf]

/-- C4 witness: a child exit with code 7 reaped by the loop's
nonblocking check propagates as supervisor exit code 7. -/
theorem c4_witness_exit_code_seven :
    (mainRun [evChildExit7]
      { closeOk := true, kill := KillResult.noProcess,
        finalWait := FinalWaitResult.err }).1 = some 7 :=
  c4_exit_code_propagation [evChildExit7]
    { closeOk := true, kill := KillResult.noProcess,
      finalWait := FinalWaitResult.err }
    .sysExit (some 7) 7 (by decide) (Or.inl ⟨rfl, rfl⟩)

/-- C5: the master descriptor is never closed by the relay loop, every
full run closes it at most once (in the cleanup that follows loop
exit), and a stdin end-of-stream iteration neither closes anything nor
stops the loop: it continues with `child_alive` true, emitting no close
action. -/
theorem c5_master_closed_once_after_loop (evs : List IterEvents)
    (cev : CleanupEvents) (k : SigKill) (mr : ReadResult) (so mw : Bool) :
    ((relayLoop { childAlive := true } evs).2).countP Action.isClose = 0
    ∧ ((mainRun evs cev).2).countP Action.isClose ≤ 1
    ∧ relayStep { childAlive := true }
        { sigterm := false, sigKill := k, sel := SelectResult.ready false true,
          masterRead := mr, stdoutWriteOk := so,
          stdinRead := ReadResult.data [], masterWriteOk := mw,
          wait := WaitResult.noChange }
        = (.next { childAlive := true },
           [Action.selectWait [Fd.master, Fd.stdinFd], Action.readFd .stdinFd,
            Action.waitNonBlocking]) := by
  refine ⟨relayLoop_no_close evs _, ?_, rfl⟩
  unfold mainRun
  cases hx : relayLoop { childAlive := true } evs with
  | mk o tr =>
    have h := relayLoop_no_close evs { childAlive := true }
    rw [hx] at h
    dsimp at h
    cases o with
    | running s =>
      dsimp only
      rw [h]
      exact Nat.zero_le 1
    | exited r p =>
      dsimp only
      rw [List.countP_append, h, cleanup_trace_eq]
      decide

/-- C6: once the relay loop exits, for every exit reason, the cleanup
sequence runs: close the master, SIGTERM the child, and a final
blocking wait — and all three are attempted for every combination of
individual step outcomes, including failing ones. -/
theorem c6_cleanup_runs_on_every_exit (evs : List IterEvents)
    (cev : CleanupEvents) (r : ExitReason) (p : Option Nat) :
    (cleanup p cev).2
      = [Action.closeMaster, Action.kill SIGTERM, Action.waitBlocking]
    ∧ ((relayLoop { childAlive := true } evs).1 = .exited r p →
        (mainRun evs cev).2
          = (relayLoop { childAlive := true } evs).2
            ++ [Action.closeMaster, Action.kill SIGTERM,
                Action.waitBlocking]) := by
  refine ⟨cleanup_trace_eq p cev, ?_⟩
  intro hl
  unfold mainRun
  cases hx : relayLoop { childAlive := true } evs with
  | mk o tr =>
    rw [hx] at hl
    dsimp at hl ⊢
    subst hl
    simp [cleanup_trace_eq]

/-- C6 witness: a run whose loop exits through a select error, with a
cleanup in which every single step fails, still performs all three
cleanup actions after the loop actions. -/
theorem c6_witness_select_error_cleanup :
    (mainRun [evSelectErr]
      { closeOk := false, kill := KillResult.permErr,
        finalWait := FinalWaitResult.err }).2
      = [Action.selectWait [Fd.master, Fd.stdinFd], Action.closeMaster,
         Action.kill SIGTERM, Action.waitBlocking] := by
  rw [(c6_cleanup_runs_on_every_exit [evSelectErr]
    { closeOk := false, kill := KillResult.permErr,
      finalWait := FinalWaitResult.err } .selectError none).2 (by decide)]
  rfl

/-- C7: the child environment is the parent environment with exactly
CLAUDECODE removed and TERM set to "dumb"; every other variable is
passed through unchanged. -/
theorem c7_child_environment (parent : String → Option String) (k : String)
    (h1 : k ≠ "CLAUDECODE") (h2 : k ≠ "TERM") :
    childEnv parent "CLAUDECODE" = none
    ∧ childEnv parent "TERM" = some "dumb"
    ∧ childEnv parent k = parent k := by
  refine ⟨rfl, rfl, ?_⟩
  simp [childEnv, h1, h2]

/-- C7 witness: at a concrete parent environment, CLAUDECODE is gone,
TERM is "dumb", and PATH passes through unchanged. -/
theorem c7_witness_env :
    childEnv (fun _ => some "v") "CLAUDECODE" = none
    ∧ childEnv (fun _ => some "v") "TERM" = some "dumb"
    ∧ childEnv (fun _ => some "v") "PATH" = some "v" :=
  c7_child_environment (fun _ => some "v") "PATH" (by decide) (by decide)

/-- C8: when the exec of the target command fails, the child branch
writes an error message to its stderr and exits with code 1 without
returning control to the supervisor; the parent observes an ordinary
child exit with code 1 (here reaped by the loop's nonblocking check)
and propagates it as its own exit code. -/
theorem c8_launch_failure_propagates (msg : String) :
    childBranch (ExecOutcome.failed msg)
      = ChildResult.exitedEarly 1 ["Failed to exec claude: " ++ msg ++ "\n"]
    ∧ childBranch (ExecOutcome.failed msg) ≠ ChildResult.execed
    ∧ (mainRun [evChildExit1]
        { closeOk := true, kill := KillResult.noProcess,
          finalWait := FinalWaitResult.err }).1 = some 1 := by
  refine ⟨rfl, ?_, by decide⟩
  intro h
  exact ChildResult.noConfusion h

/-- C9: the handler installed for SIGTERM forwards SIGTERM to the
child, treats the child's prior disappearance the same as a successful
kill (benign), clears `child_alive` so the next loop condition test
unwinds into cleanup, and performs only the kill — an action that is
neither blocking nor stream I/O. -/
theorem c9_sigterm_handler_contract (k : SigKill) (s : RelayState)
    (sk : SigKill) (sel : SelectResult) (mr : ReadResult) (so : Bool)
    (sr : ReadResult) (mw : Bool) (w : WaitResult) :
    sigterm_handler SIGTERM k s
      = ({ childAlive := false }, [Action.kill SIGTERM])
    ∧ Action.isBlocking (Action.kill SIGTERM) = false
    ∧ relayStep { childAlive := false }
        { sigterm := false, sigKill := sk, sel := sel, masterRead := mr,
          stdoutWriteOk := so, stdinRead := sr, masterWriteOk := mw,
          wait := w }
        = (.exitLoop .flagFalse none, []) := by
  refine ⟨?_, rfl, rfl⟩
  cases k <;> rfl

/-- C10: an OS error on the stdin read only abandons the dispatch for
that iteration and the loop continues with `child_alive` true, while an
OS error on the master read makes the loop exit. -/
theorem c10_stdin_read_error_asymmetry (k1 k2 : SigKill) (mr : ReadResult)
    (so1 mw1 so2 mw2 : Bool) (sr2 : ReadResult) :
    relayStep { childAlive := true }
      { sigterm := false, sigKill := k1, sel := SelectResult.ready false true,
        masterRead := mr, stdoutWriteOk := so1,
        stdinRead := ReadResult.err, masterWriteOk := mw1,
        wait := WaitResult.noChange }
      = (.next { childAlive := true },
         [Action.selectWait [Fd.master, Fd.stdinFd], Action.readFd .stdinFd,
          Action.waitNonBlocking])
    ∧ relayStep { childAlive := true }
      { sigterm := false, sigKill := k2, sel := SelectResult.ready true false,
        masterRead := ReadResult.err, stdoutWriteOk := so2,
        stdinRead := sr2, masterWriteOk := mw2,
        wait := WaitResult.noChange }
      = (.exitLoop .flagFalse none,
         [Action.selectWait [Fd.master, Fd.stdinFd], Action.readFd .master,
          Action.waitNonBlocking]) :=
  ⟨rfl, rfl⟩

end PtyRelay
